import Mathlib

/-!
Verification of the result-extraction, relevance-scoring and verification
logic of `invoke_query.py` (QueryInvoker).  Browser-effectful steps
(page loading, DOM waits, element collection, page statistics) are modelled
by an explicit `PageEnv` record carrying their outcomes; the pure parsing,
scoring and verification code is translated function by function.
-/

namespace InvokeQuery

/-- `FUNCTION_WORDS` constant of `invoke_query.py` (a Python `set`,
modelled as a list; only membership is ever used). -/
def FUNCTION_WORDS : List String := [
  "the", "a", "an", "and", "but", "or", "nor", "for", "yet", "so",
  "of", "in", "to", "by", "at", "as", "with", "on", "from", "about",
  "into", "through", "after", "before", "during", "under", "over",
  "this", "that", "these", "those", "my", "your", "his", "her", "its",
  "our", "their", "is", "am", "are", "was", "were", "be", "been", "being"]

/-- A character matched by the regex class `\w` (ASCII range). -/
def isWordChar (c : Char) : Bool := c.isAlphanum || c == '_'

/-- A character stripped by Python `str.strip()` (ASCII whitespace). -/
def isPySpace (c : Char) : Bool :=
  c == ' ' || c == '\t' || c == '\n' || c == '\r' || c == '\x0b' || c == '\x0c'

/-- Python `str.strip()`: remove leading and trailing whitespace. -/
def pyStrip (s : String) : String :=
  String.mk (((s.data.dropWhile isPySpace).reverse.dropWhile isPySpace).reverse)

/-- Python `str.lower()` (ASCII case folding). -/
def strLower (s : String) : String :=
  String.mk (s.data.map Char.toLower)

/-- Fuel-driven scanner for maximal runs of word characters; one unit of
fuel is spent per emitted or skipped character, so fuel `≥ length` gives
the exact semantics of `re.findall(r'\w+', ·)`. -/
def wordTokensAux : Nat → List Char → List (List Char)
  | 0, _ => []
  | _, [] => []
  | fuel + 1, c :: cs =>
    if isWordChar c then
      (c :: cs.takeWhile isWordChar) :: wordTokensAux fuel (cs.dropWhile isWordChar)
    else
      wordTokensAux fuel cs

/-- `re.findall(r'\w+', s)`: the maximal runs of word characters of `s`. -/
def wordTokens (s : String) : List String :=
  (wordTokensAux s.data.length s.data).map (fun cs => String.mk cs)

/-- `QueryInvoker._get_non_function_words`: tokenize the lowercased query
with `\w+` and keep the words outside `FUNCTION_WORDS` (a Python set
comprehension; set formation is modelled by `List.dedup`). -/
def get_non_function_words (query : String) : List String :=
  ((wordTokens (strLower query)).filter (fun w => !(FUNCTION_WORDS.contains w))).dedup

/-- Python substring containment `needle in hay`. -/
def strContains (needle hay : String) : Bool :=
  hay.data.tails.any (fun t => needle.data.isPrefixOf t)

/-- One scraped search result (the dict built by `extract_query_results`);
`relevant` / `relevant_terms` are the keys added by `_is_result_relevant`
(absent keys modelled by the `false` / `[]` initial values). -/
structure SearchResult where
  title : String
  website : String
  query_terms : List String
  snippet : String
  relevant : Bool
  relevant_terms : List String
  deriving DecidableEq

/-- `QueryInvoker._is_result_relevant`: lowercase the concatenated
title/snippet text, collect the query terms contained in it, annotate the
result and return the updated result together with the returned boolean. -/
def is_result_relevant (result : SearchResult) (query_terms : List String) :
    SearchResult × Bool :=
  let text := strLower (result.title ++ " " ++ result.snippet)
  let found_terms := query_terms.filter (fun term => strContains (strLower term) text)
  if found_terms ≠ [] then
    ({ result with relevant := true, relevant_terms := found_terms }, true)
  else
    ({ result with relevant := false, relevant_terms := [] }, false)

/-- First separator occurrence: `findSep sep s = some (pre, rest)` when
`s = pre ++ sep ++ rest` with `pre` shortest, `none` when `sep` does not
occur in `s`. -/
def findSep (sep : List Char) : List Char → Option (List Char × List Char)
  | [] => none
  | c :: cs =>
    if sep.isPrefixOf (c :: cs) then some ([], (c :: cs).drop sep.length)
    else
      match findSep sep cs with
      | none => none
      | some (pre, rest) => some (c :: pre, rest)

/-- Fuel-driven splitting on a separator; each recursive step consumes at
least one character of the input (the separator is nonempty in every use),
so fuel `≥ length` gives the exact semantics of Python `str.split(sep)`. -/
def splitSepAux (sep : List Char) : Nat → List Char → List (List Char)
  | 0, s => [s]
  | fuel + 1, s =>
    match findSep sep s with
    | none => [s]
    | some (pre, rest) => pre :: splitSepAux sep fuel rest

/-- Python `s.split(sep)` for a nonempty separator. -/
def pySplit (s sep : String) : List String :=
  (splitSepAux sep.data s.data.length s.data).map (fun cs => String.mk cs)

/-- The triple-consuming loop `for i in range(0, len(search_results)-2, 3)`
of `extract_query_results`: each complete triple of cell texts becomes a
result when its stripped title and website are both nonempty; the trailing
`length % 3` cells never form a triple and are ignored. -/
def buildResults : List String → List SearchResult
  | t :: w :: s :: rest =>
    let title := pyStrip t
    let website := pyStrip w
    let terms := pySplit (pyStrip s) "; "
    (if title ≠ "" ∧ website ≠ "" then
      [{ title := title, website := website, query_terms := terms,
         snippet := terms.headD "", relevant := false, relevant_terms := [] }]
     else []) ++ buildResults rest
  | _ => []

/-- The relevance pass
`sum(1 for result in result_list if self._is_result_relevant(result, query_terms))`:
annotates every result in place and counts the relevant ones. -/
def scoreResults (result_list : List SearchResult) (query_terms : List String) :
    List SearchResult × Nat :=
  match result_list with
  | [] => ([], 0)
  | r :: rs =>
    let rb := is_result_relevant r query_terms
    let rest := scoreResults rs query_terms
    (rb.1 :: rest.1, (if rb.2 then 1 else 0) + rest.2)

/-- `relevant_count / total_count if total_count > 0 else 0.0`
(floats modelled by rationals). -/
def relevance_ratio_of (relevant total : Nat) : ℚ :=
  if total > 0 then (relevant : ℚ) / (total : ℚ) else 0

/-- The stats dict returned by `extract_query_results` (both the
`error_response` shape and the success shape; `Option` fields model keys
that are absent in one of the two shapes). -/
structure Stats where
  total : Nat
  relevant : Nat
  relevance_ratio : Option ℚ
  response_code : Option Nat
  response_message : Option String
  error : Option String
  page_total_results : Option Nat
  page_query_time : Option ℚ
  deriving DecidableEq

/-- Outcomes of the browser-effectful steps of `extract_query_results`:
`load_ok` is the result of `load_page_with_retry`, `response_code` /
`response_message` the pair from `get_response_info`, `wait_ok` the result
of `wait_for_results` (which catches its timeout internally and returns
`False`), `cells` the `.text` of the collected `cell-text` elements, and
`page_stats` the optional `get_stats_from_page` numbers. -/
structure PageEnv where
  load_ok : Bool
  response_code : Option Nat
  response_message : String
  wait_ok : Bool
  cells : List String
  page_stats : Option (Nat × ℚ)
  deriving DecidableEq

/-- The result-list construction of `extract_query_results` once enough
cells are present: the triple-building loop, the `result_list.pop()`
applied when the cell count is not a multiple of 3 (guarded by the list
being nonempty), and the relevance pass (run only when a query was
given), yielding the final `result_list` and `relevant_count`. -/
def extractCore (cells : List String) (query : Option String) :
    List SearchResult × Nat :=
  let result_list0 := buildResults cells
  -- "Remove last item if it's incomplete"
  let result_list1 :=
    if result_list0 ≠ [] ∧ cells.length % 3 ≠ 0 then
      result_list0.dropLast
    else result_list0
  match query with
  | some q => scoreResults result_list1 (get_non_function_words q)
  | none => (result_list1, 0)

/-- `QueryInvoker.extract_query_results` (its pure data flow, over a
`PageEnv`): early error returns for a failed page load, a result-wait
timeout and fewer than 3 cells; otherwise the triple-building loop, the
`result_list.pop()` applied when the cell count is not a multiple of 3,
the relevance pass (only when a query is given) and the final stats. -/
def extract_query_results (env : PageEnv) (query : Option String) :
    List SearchResult × Nat × ℚ × Stats :=
  if !env.load_ok then
    ([], 0, 0,
      { total := 0, relevant := 0, relevance_ratio := none,
        response_code := none, response_message := some "Connection failed",
        error := some "Failed to load page after retries",
        page_total_results := none, page_query_time := none })
  else if !env.wait_ok then
    ([], 0, 0,
      { total := 0, relevant := 0, relevance_ratio := none,
        response_code := env.response_code,
        response_message := some env.response_message,
        error := some "Timeout waiting for results",
        page_total_results := none, page_query_time := none })
  else if env.cells.length < 3 then
    ([], 0, 0,
      { total := 0, relevant := 0, relevance_ratio := none,
        response_code := env.response_code,
        response_message := some env.response_message,
        error := some "Not enough search results",
        page_total_results := none, page_query_time := none })
  else
    let scored := extractCore env.cells query
    let total_count := scored.1.length
    let ratio := relevance_ratio_of scored.2 total_count
    (scored.1, scored.2, ratio,
      { total := total_count, relevant := scored.2, relevance_ratio := some ratio,
        response_code := env.response_code,
        response_message := some env.response_message,
        error := none,
        page_total_results := env.page_stats.map Prod.fst,
        page_query_time := env.page_stats.map Prod.snd })

/-- Uppercase hexadecimal digit of a value `< 16`. -/
def hexDigit (n : Nat) : Char :=
  if n < 10 then Char.ofNat ('0'.toNat + n) else Char.ofNat ('A'.toNat + n - 10)

/-- UTF-8 encoding of a character, as byte values. -/
def utf8Bytes (c : Char) : List Nat :=
  let n := c.toNat
  if n < 0x80 then [n]
  else if n < 0x800 then [0xC0 + n / 64, 0x80 + n % 64]
  else if n < 0x10000 then
    [0xE0 + n / 4096, 0x80 + (n / 64) % 64, 0x80 + n % 64]
  else
    [0xF0 + n / 262144, 0x80 + (n / 4096) % 64, 0x80 + (n / 64) % 64, 0x80 + n % 64]

/-- Percent-encoding `%XX` of one byte (uppercase hex, as in `urllib`). -/
def percentByte (b : Nat) : List Char :=
  ['%', hexDigit (b / 16), hexDigit (b % 16)]

/-- `urllib.parse.quote_plus` on a single character: the always-safe
characters (ASCII letters, digits, `_.-~`) are kept, a space becomes `+`,
everything else is percent-encoded byte by byte. -/
def quotePlusChar (c : Char) : List Char :=
  if c.isAlphanum || c == '_' || c == '.' || c == '-' || c == '~' then [c]
  else if c == ' ' then ['+']
  else ((utf8Bytes c).map percentByte).flatten

/-- `urllib.parse.quote_plus(query)` as used by `create_url`. -/
def quote_plus (s : String) : String :=
  String.mk ((s.data.map quotePlusChar).flatten)

/-- `QueryInvoker.create_url`: percent-encode the query, interpolate it
into `{base_url}/run_search?query={encoded_query}&its-me={its_me}`, then
append each additional parameter as `&{key}={value}`. -/
def create_url (base_url query its_me : String)
    (additional_params : List (String × String)) : String :=
  let encoded_query := quote_plus query
  let url := base_url ++ "/run_search?query=" ++ encoded_query ++ "&its-me=" ++ its_me
  additional_params.foldl (fun u kv => u ++ "&" ++ kv.1 ++ "=" ++ kv.2) url

/-- The `self.test_results` dict of `QueryInvoker`. -/
structure TestResults where
  passed : Bool
  total_results : Nat
  relevant_results : Nat
  relevance_ratio : ℚ
  expected_results : Nat
  expected_relevance : ℚ
  response_code : Option Nat
  response_message : Option String
  error : Option String
  individual_results : List SearchResult
  deriving DecidableEq

/-- The fields of `QueryInvoker` set in `__init__` (the `driver` handle to
the browser process is outside the data model). -/
structure QueryInvoker where
  base_url : String
  use_chrome : Bool
  headless : Bool
  browser_timeout : Nat
  max_retries : Nat
  page_load_timeout : Nat
  query_wait_timeout : Nat
  expected_results : Nat
  relevance_threshold : ℚ
  take_screenshots : Bool
  output_dir : Option String
  test_results : TestResults
  deriving DecidableEq

/-- The failure reason logged by `verify_results` when the result count is
below the expectation (Python renders the numbers with `str`; rationals
are rendered with `toString`). -/
def resultsFailReason (expected total : Nat) : String :=
  "Expected at least " ++ toString expected ++ " results, got " ++ toString total

/-- The failure reason logged by `verify_results` when the relevance ratio
is below the threshold (Python renders the floats with `repr` / `:.2f`;
rationals are rendered with `toString`). -/
def relevanceFailReason (threshold ratio : ℚ) : String :=
  "Expected relevance ratio of " ++ toString threshold ++ ", got " ++ toString ratio

/-- `QueryInvoker.verify_results` in state-passing form: the returned
boolean and the logged failure reasons, together with the (unchanged)
invoker state and arguments.  Reads `total` and `relevance_ratio` from the
stats dict with the defaults of `dict.get`, checks the two criteria, and
on failure collects one reason per violated criterion. -/
def verify_results (self : QueryInvoker) (results : List SearchResult)
    (stats : Stats) :
    (Bool × List String) × (QueryInvoker × List SearchResult × Stats) :=
  let total_count := stats.total
  let ratio := stats.relevance_ratio.getD 0
  let results_check := decide (total_count ≥ self.expected_results)
  let relevance_check := decide (ratio ≥ self.relevance_threshold)
  if results_check && relevance_check then
    ((true, []), (self, results, stats))
  else
    let reasons :=
      (if !results_check then [resultsFailReason self.expected_results total_count] else [])
        ++ (if !relevance_check then [relevanceFailReason self.relevance_threshold ratio] else [])
    ((false, reasons), (self, results, stats))

/-- Concrete cell texts: one complete valid triple followed by one
trailing cell (4 elements, 4 mod 3 = 1). -/
def sampleCells4 : List String :=
  ["Python tutorial", "example.com", "python; code", "leftover"]

/-- Page environment for the 4-cell page. -/
def env_c1 : PageEnv :=
  { load_ok := true, response_code := some 200, response_message := "OK",
    wait_ok := true, cells := sampleCells4, page_stats := none }

/-- Page environment for a result-wait timeout. -/
def env_timeout : PageEnv :=
  { load_ok := true, response_code := some 200, response_message := "OK",
    wait_ok := false, cells := [], page_stats := none }

/-- Page environment with 9 cells forming 3 complete valid triples. -/
def env_ok9 : PageEnv :=
  { load_ok := true, response_code := some 200, response_message := "OK",
    wait_ok := true,
    cells := ["Python intro", "site1", "python; code",
              "Java guide", "site2", "java; jvm",
              "Cooking", "site3", "pasta; sauce"],
    page_stats := none }

/-- The first result scraped from `env_ok9` (no relevance pass applied). -/
def sampleResult9 : SearchResult :=
  { title := "Python intro", website := "site1",
    query_terms := ["python", "code"], snippet := "python",
    relevant := false, relevant_terms := [] }

/-- A stats record with too few results and too low a ratio. -/
def sampleStatsLow : Stats :=
  { total := 3, relevant := 1, relevance_ratio := some (1/3 : ℚ),
    response_code := some 200, response_message := some "OK",
    error := none, page_total_results := none, page_query_time := none }

/-- An initial `test_results` record. -/
def sampleTestResults : TestResults :=
  { passed := false, total_results := 0, relevant_results := 0,
    relevance_ratio := 0, expected_results := 10, expected_relevance := 1/2,
    response_code := none, response_message := none, error := none,
    individual_results := [] }

/-- A `QueryInvoker` with the default expectations
(`expected_results = 10`, `relevance_threshold = 0.5`). -/
def sampleInvoker : QueryInvoker :=
  { base_url := "http://scrappycito.com:9330", use_chrome := false,
    headless := true, browser_timeout := 30, max_retries := 3,
    page_load_timeout := 30, query_wait_timeout := 15,
    expected_results := 10, relevance_threshold := 1/2,
    take_screenshots := false, output_dir := none,
    test_results := sampleTestResults }

/-! ### Helper lemmas -/

theorem splitSepAux_ne_nil (sep : List Char) (fuel : Nat) (s : List Char) :
    splitSepAux sep fuel s ≠ [] := by
  cases fuel with
  | zero => simp [splitSepAux]
  | succ n =>
    rcases h : findSep sep s with _ | ⟨pre, rest⟩ <;> simp [splitSepAux, h]

theorem pySplit_ne_nil (s sep : String) : pySplit s sep ≠ [] := by
  have h := splitSepAux_ne_nil sep.data s.data.length s.data
  simpa [pySplit] using h

theorem string_append_assoc (a b c : String) : a ++ b ++ c = a ++ (b ++ c) := by
  apply String.ext
  simp [String.data_append, List.append_assoc]

theorem quote_plus_append (a b : String) :
    quote_plus (a ++ b) = quote_plus a ++ quote_plus b := by
  apply String.ext
  simp [quote_plus, String.data_append]

/-- Every result built by the triple loop has a nonempty stripped title
and website, a nonempty `query_terms` list, and its snippet is the first
query term. -/
theorem mem_buildResults :
    ∀ (cells : List String) (r : SearchResult), r ∈ buildResults cells →
      r.title ≠ "" ∧ r.website ≠ "" ∧ r.query_terms ≠ [] ∧
        r.snippet = r.query_terms.headD ""
  | t :: w :: s :: rest, r, hr => by
    simp only [buildResults] at hr
    rcases List.mem_append.mp hr with h | h
    · by_cases hc : pyStrip t ≠ "" ∧ pyStrip w ≠ ""
      · rw [if_pos hc] at h
        rcases List.mem_singleton.mp h with rfl
        exact ⟨hc.1, hc.2, pySplit_ne_nil _ _, rfl⟩
      · rw [if_neg hc] at h
        simp at h
    · exact mem_buildResults rest r h
  | [], r, hr => by simp [buildResults] at hr
  | [t], r, hr => by simp [buildResults] at hr
  | [t, w], r, hr => by simp [buildResults] at hr

theorem is_result_relevant_fields (r : SearchResult) (terms : List String) :
    (is_result_relevant r terms).1.title = r.title ∧
    (is_result_relevant r terms).1.website = r.website ∧
    (is_result_relevant r terms).1.query_terms = r.query_terms ∧
    (is_result_relevant r terms).1.snippet = r.snippet := by
  by_cases h : (terms.filter
      (fun term => strContains (strLower term) (strLower (r.title ++ " " ++ r.snippet)))) ≠ [] <;>
    simp [is_result_relevant, h]

theorem is_result_relevant_flag (r : SearchResult) (terms : List String) :
    (is_result_relevant r terms).1.relevant = (is_result_relevant r terms).2 := by
  by_cases h : (terms.filter
      (fun term => strContains (strLower term) (strLower (r.title ++ " " ++ r.snippet)))) ≠ [] <;>
    simp [is_result_relevant, h]

theorem scoreResults_fst_length (rs : List SearchResult) (terms : List String) :
    (scoreResults rs terms).1.length = rs.length := by
  induction rs with
  | nil => rfl
  | cons r rs ih => simp [scoreResults, ih]

theorem scoreResults_snd_le (rs : List SearchResult) (terms : List String) :
    (scoreResults rs terms).2 ≤ rs.length := by
  induction rs with
  | nil => simp [scoreResults]
  | cons r rs ih =>
    simp only [scoreResults, List.length_cons]
    split <;> omega

theorem mem_scoreResults {r' : SearchResult} {rs : List SearchResult}
    {terms : List String} :
    r' ∈ (scoreResults rs terms).1 ↔
      ∃ r ∈ rs, r' = (is_result_relevant r terms).1 := by
  induction rs with
  | nil => simp [scoreResults]
  | cons r rs ih =>
    simp only [scoreResults, List.mem_cons, ih]
    constructor
    · rintro (rfl | ⟨r0, h0, rfl⟩)
      · exact ⟨r, Or.inl rfl, rfl⟩
      · exact ⟨r0, Or.inr h0, rfl⟩
    · rintro ⟨r0, (rfl | h0), rfl⟩
      · exact Or.inl rfl
      · exact Or.inr ⟨r0, h0, rfl⟩

/-- Every result produced by `extractCore` originates in the triple loop,
with the core fields unchanged by the relevance pass. -/
theorem exists_source_of_mem_extractCore (cells : List String)
    (q : Option String) (r : SearchResult) (hr : r ∈ (extractCore cells q).1) :
    ∃ r0 ∈ buildResults cells,
      r.title = r0.title ∧ r.website = r0.website ∧
        r.query_terms = r0.query_terms ∧ r.snippet = r0.snippet := by
  have hsub : (if buildResults cells ≠ [] ∧ cells.length % 3 ≠ 0 then
      (buildResults cells).dropLast else buildResults cells) ⊆ buildResults cells := by
    split
    · exact List.dropLast_subset _
    · exact List.Subset.refl _
  cases q with
  | none =>
    simp only [extractCore] at hr
    exact ⟨r, hsub hr, rfl, rfl, rfl, rfl⟩
  | some qs =>
    simp only [extractCore] at hr
    obtain ⟨r0, h0, rfl⟩ := mem_scoreResults.mp hr
    obtain ⟨h1, h2, h3, h4⟩ :=
      is_result_relevant_fields r0 (get_non_function_words qs)
    exact ⟨r0, hsub h0, h1, h2, h3, h4⟩

theorem extractCore_snd_le (cells : List String) (q : Option String) :
    (extractCore cells q).2 ≤ (extractCore cells q).1.length := by
  cases q with
  | none => simp [extractCore]
  | some qs =>
    simp only [extractCore]
    rw [scoreResults_fst_length]
    exact scoreResults_snd_le _ _

theorem extract_eq_of_load_fail (env : PageEnv) (q : Option String)
    (h : env.load_ok = false) :
    extract_query_results env q =
      ([], 0, 0,
        { total := 0, relevant := 0, relevance_ratio := none,
          response_code := none, response_message := some "Connection failed",
          error := some "Failed to load page after retries",
          page_total_results := none, page_query_time := none }) := by
  simp [extract_query_results, h]

theorem extract_eq_of_timeout (env : PageEnv) (q : Option String)
    (h1 : env.load_ok = true) (h2 : env.wait_ok = false) :
    extract_query_results env q =
      ([], 0, 0,
        { total := 0, relevant := 0, relevance_ratio := none,
          response_code := env.response_code,
          response_message := some env.response_message,
          error := some "Timeout waiting for results",
          page_total_results := none, page_query_time := none }) := by
  simp [extract_query_results, h1, h2]

theorem extract_eq_of_too_few (env : PageEnv) (q : Option String)
    (h1 : env.load_ok = true) (h2 : env.wait_ok = true)
    (h3 : env.cells.length < 3) :
    extract_query_results env q =
      ([], 0, 0,
        { total := 0, relevant := 0, relevance_ratio := none,
          response_code := env.response_code,
          response_message := some env.response_message,
          error := some "Not enough search results",
          page_total_results := none, page_query_time := none }) := by
  simp [extract_query_results, h1, h2, h3]

theorem extract_eq_of_success (env : PageEnv) (q : Option String)
    (h1 : env.load_ok = true) (h2 : env.wait_ok = true)
    (h3 : ¬ env.cells.length < 3) :
    extract_query_results env q =
      ((extractCore env.cells q).1, (extractCore env.cells q).2,
        relevance_ratio_of (extractCore env.cells q).2 (extractCore env.cells q).1.length,
        { total := (extractCore env.cells q).1.length,
          relevant := (extractCore env.cells q).2,
          relevance_ratio := some (relevance_ratio_of (extractCore env.cells q).2
            (extractCore env.cells q).1.length),
          response_code := env.response_code,
          response_message := some env.response_message,
          error := none,
          page_total_results := env.page_stats.map Prod.fst,
          page_query_time := env.page_stats.map Prod.snd }) := by
  simp [extract_query_results, h1, h2, h3]

/-- Every result returned by `extract_query_results` has a nonempty title
and website, a nonempty term list, and its snippet is the first term. -/
theorem mem_extract_fields (env : PageEnv) (q : Option String)
    (r : SearchResult) (hr : r ∈ (extract_query_results env q).1) :
    r.title ≠ "" ∧ r.website ≠ "" ∧ r.query_terms ≠ [] ∧
      r.snippet = r.query_terms.headD "" := by
  rcases hl : env.load_ok with _ | _
  · rw [extract_eq_of_load_fail env q hl] at hr
    simp at hr
  rcases hw : env.wait_ok with _ | _
  · rw [extract_eq_of_timeout env q hl hw] at hr
    simp at hr
  by_cases h3 : env.cells.length < 3
  · rw [extract_eq_of_too_few env q hl hw h3] at hr
    simp at hr
  · rw [extract_eq_of_success env q hl hw h3] at hr
    obtain ⟨r0, h0, e1, e2, e3, e4⟩ :=
      exists_source_of_mem_extractCore env.cells q r hr
    obtain ⟨p1, p2, p3, p4⟩ := mem_buildResults env.cells r0 h0
    rw [e1, e2, e3, e4]
    exact ⟨p1, p2, p3, p4⟩

theorem relevance_ratio_of_nonneg (relevant total : Nat) :
    0 ≤ relevance_ratio_of relevant total := by
  unfold relevance_ratio_of
  split
  · positivity
  · exact le_refl 0

theorem relevance_ratio_of_le_one (relevant total : Nat)
    (h : relevant ≤ total) : relevance_ratio_of relevant total ≤ 1 := by
  unfold relevance_ratio_of
  split
  · rename_i hpos
    rw [div_le_one (by exact_mod_cast hpos)]
    exact_mod_cast h
  · exact zero_le_one

/-! ### Claim theorems -/

/-- C3: `_is_result_relevant` marks a result relevant, and returns `true`,
exactly when at least one query term occurs as a case-insensitive
substring of the concatenated title and snippet text. -/
theorem relevant_iff_term_in_title_snippet (r : SearchResult)
    (terms : List String) :
    ((is_result_relevant r terms).2 = true ↔
      ∃ t ∈ terms,
        strContains (strLower t) (strLower (r.title ++ " " ++ r.snippet)) = true)
    ∧ (is_result_relevant r terms).1.relevant = (is_result_relevant r terms).2 := by
  constructor
  · have key : (terms.filter
        (fun term => strContains (strLower term) (strLower (r.title ++ " " ++ r.snippet)))) ≠ [] ↔
        ∃ t ∈ terms,
          strContains (strLower t) (strLower (r.title ++ " " ++ r.snippet)) = true := by
      constructor
      · intro hne
        obtain ⟨t, ht⟩ := List.exists_mem_of_ne_nil _ hne
        obtain ⟨h1, h2⟩ := List.mem_filter.mp ht
        exact ⟨t, h1, h2⟩
      · rintro ⟨t, h1, h2⟩ hnil
        have hmem : t ∈ terms.filter
            (fun term => strContains (strLower term)
              (strLower (r.title ++ " " ++ r.snippet))) :=
          List.mem_filter.mpr ⟨h1, h2⟩
        rw [hnil] at hmem
        simp at hmem
    rw [← key]
    by_cases h : (terms.filter
        (fun term => strContains (strLower term) (strLower (r.title ++ " " ++ r.snippet)))) ≠ [] <;>
      simp [is_result_relevant, h]
  · exact is_result_relevant_flag r terms

/-- C5: `_get_non_function_words` keeps exactly the `\w+` tokens of the
lowercased query that are not function words; on
"he is from the kingdom of wakanda" it yields {"he", "kingdom", "wakanda"}. -/
theorem get_non_function_words_spec :
    (∀ q w : String,
      w ∈ get_non_function_words q ↔ w ∈ wordTokens (strLower q) ∧ w ∉ FUNCTION_WORDS)
    ∧ get_non_function_words "he is from the kingdom of wakanda" =
        ["he", "kingdom", "wakanda"] := by
  constructor
  · intro q w
    simp [get_non_function_words, List.mem_dedup, List.mem_filter]
  · decide

/-- C6: `create_url` produces
`{base_url}/run_search?query={encoded}&its-me=on` when no additional
parameters are given, so the percent-encoded query is a substring and the
URL ends with the fixed path, the encoded query and the its-me flag;
`quote_plus` encodes spaces as `+`. -/
theorem create_url_spec :
    (∀ base q : String,
      create_url base q "on" [] =
        base ++ ("/run_search?query=" ++ (quote_plus q ++ "&its-me=on")))
    ∧ (∀ base q : String, ∃ pre suf : String,
        create_url base q "on" [] = pre ++ (quote_plus q ++ suf))
    ∧ (∀ a b : String,
        quote_plus (a ++ " " ++ b) = quote_plus a ++ ("+" ++ quote_plus b)) := by
  have hlit : ("&its-me=" : String) ++ "on" = "&its-me=on" := by decide
  have h1 : ∀ base q : String,
      create_url base q "on" [] =
        base ++ ("/run_search?query=" ++ (quote_plus q ++ "&its-me=on")) := by
    intro base q
    calc create_url base q "on" []
        = base ++ "/run_search?query=" ++ quote_plus q ++ "&its-me=" ++ "on" := rfl
      _ = base ++ "/run_search?query=" ++ quote_plus q ++ ("&its-me=" ++ "on") := by
            rw [string_append_assoc]
      _ = base ++ "/run_search?query=" ++ (quote_plus q ++ "&its-me=on") := by
            rw [hlit, string_append_assoc]
      _ = base ++ ("/run_search?query=" ++ (quote_plus q ++ "&its-me=on")) := by
            rw [string_append_assoc]
  refine ⟨h1, fun base q => ⟨base ++ "/run_search?query=", "&its-me=on", ?_⟩, ?_⟩
  · rw [h1, string_append_assoc]
  · intro a b
    have hsp : quote_plus " " = "+" := by decide
    rw [quote_plus_append, quote_plus_append, hsp, string_append_assoc]

/-- C10: `verify_results` is read-only: the invoker state and both
arguments pass through unchanged; only the boolean verdict (with the
logged reasons) is computed. -/
theorem verify_results_is_read_only (inv : QueryInvoker)
    (results : List SearchResult) (stats : Stats) :
    (verify_results inv results stats).2 = (inv, results, stats) := by
  by_cases h : (decide (stats.total ≥ inv.expected_results)
      && decide (stats.relevance_ratio.getD 0 ≥ inv.relevance_threshold)) = true <;>
    simp [verify_results, h]

/-- C8: when the bounded wait for the marker element times out (and the
page itself loaded), `extract_query_results` returns an empty result
list, relevant count 0, relevance ratio 0.0, and a stats record whose
error field reports the timeout. -/
theorem wait_timeout_yields_empty_results (env : PageEnv) (q : Option String)
    (h1 : env.load_ok = true) (h2 : env.wait_ok = false) :
    extract_query_results env q =
      ([], 0, 0,
        { total := 0, relevant := 0, relevance_ratio := none,
          response_code := env.response_code,
          response_message := some env.response_message,
          error := some "Timeout waiting for results",
          page_total_results := none, page_query_time := none }) :=
  extract_eq_of_timeout env q h1 h2

/-- Witness for C8: concrete timeout environment. -/
theorem wait_timeout_yields_empty_results_witness :
    extract_query_results env_timeout none =
      ([], 0, 0,
        { total := 0, relevant := 0, relevance_ratio := none,
          response_code := some 200, response_message := some "OK",
          error := some "Timeout waiting for results",
          page_total_results := none, page_query_time := none }) :=
  wait_timeout_yields_empty_results env_timeout none rfl rfl

/-- C1 (code bug): on 4 marker cells forming one complete valid triple
plus one trailing cell, the loop parses the complete triple (one result,
`floor(4/3) = 1`, no skipped groups), but the final
`result_list.pop()` — whose comment says it removes an *incomplete* last
item — discards that complete result, so the function returns 0 results
instead of the specified `floor(N/3) - skipped = 1`. -/
theorem pop_discards_complete_result_on_non_multiple :
    env_c1.cells.length % 3 = 1 ∧ env_c1.cells.length / 3 = 1 ∧
    (buildResults env_c1.cells).length = 1 ∧
    (extract_query_results env_c1 none).1 = [] ∧
    (extract_query_results env_c1 none).2.2.2.total = 0 := by
  decide

/-- C2: `verify_results` returns `true` exactly when the result count
meets `expected_results` and the relevance ratio meets
`relevance_threshold`; on failure it returns `false` together with one
reported reason per violated criterion. -/
theorem verify_results_spec (inv : QueryInvoker) (results : List SearchResult)
    (stats : Stats) :
    ((verify_results inv results stats).1.1 = true ↔
      stats.total ≥ inv.expected_results ∧
        stats.relevance_ratio.getD 0 ≥ inv.relevance_threshold)
    ∧ ((verify_results inv results stats).1.1 = true →
        (verify_results inv results stats).1.2 = [])
    ∧ (stats.total < inv.expected_results →
        resultsFailReason inv.expected_results stats.total ∈
          (verify_results inv results stats).1.2)
    ∧ (stats.relevance_ratio.getD 0 < inv.relevance_threshold →
        relevanceFailReason inv.relevance_threshold (stats.relevance_ratio.getD 0) ∈
          (verify_results inv results stats).1.2)
    ∧ ((verify_results inv results stats).1.1 = false →
        (verify_results inv results stats).1.2 ≠ []) := by
  by_cases hr : stats.total ≥ inv.expected_results <;>
    by_cases hv : stats.relevance_ratio.getD 0 ≥ inv.relevance_threshold
  · have hval : verify_results inv results stats = ((true, []), (inv, results, stats)) := by
      simp [verify_results, hr, hv]
    rw [hval]
    refine ⟨by simp [hr, hv], fun _ => rfl, ?_, ?_, by simp⟩
    · intro hlt; exact absurd hr (not_le.mpr hlt)
    · intro hlt; exact absurd hv (not_le.mpr hlt)
  · have hval : verify_results inv results stats =
        ((false, [relevanceFailReason inv.relevance_threshold
          (stats.relevance_ratio.getD 0)]), (inv, results, stats)) := by
      simp [verify_results, hr, hv]
    rw [hval]
    refine ⟨by simp [hv], by simp, ?_, fun _ => by simp, by simp⟩
    · intro hlt; exact absurd hr (not_le.mpr hlt)
  · have hval : verify_results inv results stats =
        ((false, [resultsFailReason inv.expected_results stats.total]),
          (inv, results, stats)) := by
      simp [verify_results, hr, hv]
    rw [hval]
    refine ⟨by simp [hr], by simp, fun _ => by simp, ?_, by simp⟩
    · intro hlt; exact absurd hv (not_le.mpr hlt)
  · have hval : verify_results inv results stats =
        ((false, [resultsFailReason inv.expected_results stats.total,
          relevanceFailReason inv.relevance_threshold
            (stats.relevance_ratio.getD 0)]), (inv, results, stats)) := by
      simp [verify_results, hr, hv]
    rw [hval]
    exact ⟨by simp [hr], by simp, fun _ => by simp, fun _ => by simp, by simp⟩

/-- Witness for C2: with the defaults (10 expected, 0.5 threshold), a
stats record with 3 results and ratio 1/3 fails both criteria and both
reasons are reported. -/
theorem verify_results_spec_witness :
    resultsFailReason 10 3 ∈ (verify_results sampleInvoker [] sampleStatsLow).1.2
    ∧ relevanceFailReason ((1 : ℚ)/2) ((1 : ℚ)/3) ∈
        (verify_results sampleInvoker [] sampleStatsLow).1.2
    ∧ (verify_results sampleInvoker [] sampleStatsLow).1.1 = false := by
  have hlt1 : sampleStatsLow.total < sampleInvoker.expected_results := by decide
  have hlt2 : sampleStatsLow.relevance_ratio.getD 0 < sampleInvoker.relevance_threshold := by
    norm_num [sampleStatsLow, sampleInvoker]
  refine ⟨(verify_results_spec sampleInvoker [] sampleStatsLow).2.2.1 hlt1,
    (verify_results_spec sampleInvoker [] sampleStatsLow).2.2.2.1 hlt2, ?_⟩
  have hiff := (verify_results_spec sampleInvoker [] sampleStatsLow).1
  rcases hb : (verify_results sampleInvoker [] sampleStatsLow).1.1 with _ | _
  · rfl
  · exact absurd ((hiff.mp hb).1) (not_le.mpr hlt1)

/-- C4: the relevance ratio is 0 whenever the total is 0 (whatever the
relevant count is), equals `relevant / total` whenever the total is
positive, and always lies in [0, 1]. -/
theorem relevance_ratio_spec :
    (∀ relevant : Nat, relevance_ratio_of relevant 0 = 0)
    ∧ (∀ (env : PageEnv) (q : Option String),
        ((extract_query_results env q).2.2.2.total = 0 →
          (extract_query_results env q).2.2.1 = 0)
        ∧ (0 < (extract_query_results env q).2.2.2.total →
            (extract_query_results env q).2.2.1 =
              ((extract_query_results env q).2.2.2.relevant : ℚ) /
                ((extract_query_results env q).2.2.2.total : ℚ))
        ∧ 0 ≤ (extract_query_results env q).2.2.1
        ∧ (extract_query_results env q).2.2.1 ≤ 1) := by
  constructor
  · intro relevant
    simp [relevance_ratio_of]
  · intro env q
    rcases hl : env.load_ok with _ | _
    · rw [extract_eq_of_load_fail env q hl]
      exact ⟨fun _ => rfl, by simp, le_refl 0, zero_le_one⟩
    rcases hw : env.wait_ok with _ | _
    · rw [extract_eq_of_timeout env q hl hw]
      exact ⟨fun _ => rfl, by simp, le_refl 0, zero_le_one⟩
    by_cases h3 : env.cells.length < 3
    · rw [extract_eq_of_too_few env q hl hw h3]
      exact ⟨fun _ => rfl, by simp, le_refl 0, zero_le_one⟩
    · rw [extract_eq_of_success env q hl hw h3]
      refine ⟨?_, ?_, relevance_ratio_of_nonneg _ _,
        relevance_ratio_of_le_one _ _ (extractCore_snd_le _ _)⟩
      · intro h0
        have hlen : (extractCore env.cells q).1.length = 0 := h0
        show relevance_ratio_of (extractCore env.cells q).2
            (extractCore env.cells q).1.length = 0
        rw [hlen]
        simp [relevance_ratio_of]
      · intro hpos
        have hpos' : 0 < (extractCore env.cells q).1.length := hpos
        show relevance_ratio_of (extractCore env.cells q).2
            (extractCore env.cells q).1.length =
          ((extractCore env.cells q).2 : ℚ) /
            ((extractCore env.cells q).1.length : ℚ)
        simp only [relevance_ratio_of, if_pos hpos']

/-- Witness for C4: the timeout page has total 0 and ratio 0; the 9-cell
page has positive total and ratio `relevant / total`. -/
theorem relevance_ratio_spec_witness :
    relevance_ratio_of 5 0 = 0
    ∧ (extract_query_results env_timeout none).2.2.1 = 0
    ∧ (extract_query_results env_ok9 none).2.2.1 =
        ((extract_query_results env_ok9 none).2.2.2.relevant : ℚ) /
          ((extract_query_results env_ok9 none).2.2.2.total : ℚ) :=
  ⟨relevance_ratio_spec.1 5,
   (relevance_ratio_spec.2 env_timeout none).1 rfl,
   (relevance_ratio_spec.2 env_ok9 none).2.1 (by decide)⟩

/-- C7: a triple whose stripped title or stripped website is empty
contributes no entry to the output: the loop skips it, and consequently
every result returned by `extract_query_results` has a nonempty title
and website. -/
theorem empty_title_or_website_skips_triple :
    (∀ t w s rest, pyStrip t = "" ∨ pyStrip w = "" →
        buildResults (t :: w :: s :: rest) = buildResults rest)
    ∧ (∀ (env : PageEnv) (q : Option String) (r : SearchResult),
        r ∈ (extract_query_results env q).1 → r.title ≠ "" ∧ r.website ≠ "") := by
  constructor
  · intro t w s rest h
    have hc : ¬(pyStrip t ≠ "" ∧ pyStrip w ≠ "") := by tauto
    simp only [buildResults]
    rw [if_neg hc]
    simp
  · intro env q r hr
    obtain ⟨h1, h2, _, _⟩ := mem_extract_fields env q r hr
    exact ⟨h1, h2⟩

/-- Witness for C7: an empty-title triple yields nothing, and a concrete
extracted result has nonempty title. -/
theorem empty_title_or_website_skips_triple_witness :
    buildResults ["", "w", "s"] = buildResults []
    ∧ sampleResult9.title ≠ "" :=
  ⟨empty_title_or_website_skips_triple.1 "" "w" "s" [] (Or.inl rfl),
   (empty_title_or_website_skips_triple.2 env_ok9 none sampleResult9 (by decide)).1⟩

/-- C9: splitting any string on `"; "` yields a nonempty list, so the
empty-string snippet fallback is unreachable and every produced result's
snippet is the first element of its `query_terms`. -/
theorem snippet_is_first_query_term :
    (∀ s : String, pySplit s "; " ≠ [])
    ∧ (∀ (env : PageEnv) (q : Option String) (r : SearchResult),
        r ∈ (extract_query_results env q).1 →
          r.query_terms ≠ [] ∧ r.snippet = r.query_terms.headD "") :=
  ⟨fun s => pySplit_ne_nil s "; ",
   fun env q r hr =>
     ⟨(mem_extract_fields env q r hr).2.2.1, (mem_extract_fields env q r hr).2.2.2⟩⟩

/-- Witness for C9: splitting the empty string is nonempty, and a
concrete extracted result's snippet is its first query term. -/
theorem snippet_is_first_query_term_witness :
    pySplit "" "; " ≠ []
    ∧ sampleResult9.snippet = sampleResult9.query_terms.headD "" :=
  ⟨snippet_is_first_query_term.1 "",
   (snippet_is_first_query_term.2 env_ok9 none sampleResult9 (by decide)).2⟩

end InvokeQuery
